import Mathlib

/-!
Verification of the similarity-recommendation core of the music
recommendation system and of the frontend components that consume it
(the request boundary and the daily-mix walker).

The repository snapshot ships the README that documents the Python
`SimilarItemRec` core and the JavaScript frontend, but not the Python
source of the core itself.  The core is therefore modelled from the
spec (its definitions carry a `Modelled from the spec:` doc comment),
while the frontend pieces (`musicApi.getRecommendations`, `useDailyMix`)
are embedded from the JavaScript source.

Numeric design choices of the embedding: machine floats are modelled by
rationals; the standard deviation is represented by its square (the
variance) and the Euclidean distance by its square — an order-preserving
representation under which every claim checked here (error modes,
self-exclusion, result length, sort order, snapshot preservation,
idempotence) is invariant.
-/

namespace MusicRec

/-- Modelled from the spec: the error taxonomy of the core
(`InvalidInputError`, `UntrainedModelError`, `NotFoundError`,
`DuplicateIdentifierError`). -/
inductive ModelError where
  | invalidInput
  | untrainedModel
  | notFound
  | duplicateIdentifier
  deriving DecidableEq, Repr

/-- Modelled from the spec: a raw track record (identifier, display
metadata, and the continuous audio attributes as one numeric list). -/
structure TrackRecord where
  track_id : String
  name : String
  artist : String
  year : Int
  audio : List ℚ
  deriving DecidableEq, Repr

/-- Modelled from the spec: a tabular record set as handed to `train` and
`update`: the column names present plus the parsed rows. -/
structure RecordSet where
  columns : List String
  rows : List TrackRecord
  deriving DecidableEq, Repr

/-- Modelled from the spec: the required input columns (identifier, name,
artist, year, genre, duration, and the eleven continuous audio
attributes, per the README's input data format). -/
def requiredColumns : List String :=
  ["track_id", "name", "artist", "year", "genre", "duration_ms",
   "danceability", "energy", "key", "loudness", "mode", "speechiness",
   "acousticness", "instrumentalness", "liveness", "valence", "tempo",
   "time_signature"]

/-- Number of continuous audio attributes that are standardized. -/
def numAudioFeatures : Nat := 11

/-- Modelled from the spec: input validation shared by `train` and
`update` — missing required columns or an empty record set fail with
`InvalidInputError`. -/
def validateRecords (rs : RecordSet) : Option ModelError :=
  if requiredColumns.all (fun c => rs.columns.contains c) = false then
    some ModelError.invalidInput
  else if rs.rows.isEmpty then
    some ModelError.invalidInput
  else
    none

/-- Position of the first occurrence of `tid` in a list, if any (the
id → row lookup of the model's bidirectional mapping). -/
def idIndex (tid : String) : List String → Option Nat
  | [] => none
  | x :: xs => if x = tid then some 0 else (idIndex tid xs).map (fun i => i + 1)

/-- Mean of a list of rationals. -/
def qmean (xs : List ℚ) : ℚ := xs.sum / (xs.length : ℚ)

/-- Population variance of a list of rationals (square of the standard
deviation; the embedding works in the squared representation). -/
def qvariance (xs : List ℚ) : ℚ := qmean (xs.map (fun x => (x - qmean xs) ^ 2))

/-- Modelled from the spec: the `ε` guarding division by zero when a
feature is constant. -/
def eps : ℚ := 1 / 1000000

/-- The values of audio-attribute column `j` over the corpus. -/
def colVals (rows : List TrackRecord) (j : Nat) : List ℚ :=
  rows.map (fun r => r.audio.getD j 0)

/-- Modelled from the spec: `FeatureEncoder.fit` — per-continuous-feature
mean and spread (variance clamped below by `eps`), captured over the
training corpus. -/
def fitStats (rows : List TrackRecord) : List (ℚ × ℚ) :=
  (List.range numAudioFeatures).map
    (fun j => (qmean (colVals rows j), max (qvariance (colVals rows j)) eps))

/-- Distinct artists of the corpus in first-occurrence order. -/
def artistList (rows : List TrackRecord) : List String :=
  (rows.map (fun r => r.artist)).dedup

/-- Modelled from the spec: the artist identity converted to a numeric
signal as a stable categorical index over the corpus. -/
def artistCode (rows : List TrackRecord) (a : String) : ℚ :=
  ((idIndex a (artistList rows)).getD (artistList rows).length : ℚ)

/-- Mean release year of the corpus. -/
def meanYear (rows : List TrackRecord) : ℚ :=
  qmean (rows.map (fun r => (r.year : ℚ)))

/-- Modelled from the spec: `FeatureEncoder.transform` on one record —
standardized continuous attributes concatenated with the weighted
artist signal and the weighted (corpus-mean-centered) year signal. -/
def encodeRow (rows : List TrackRecord) (stats : List (ℚ × ℚ))
    (aw yw : ℚ) (r : TrackRecord) : List ℚ :=
  ((List.range numAudioFeatures).map (fun j =>
      (r.audio.getD j 0 - (stats.getD j (0, 1)).1) / (stats.getD j (0, 1)).2))
    ++ [aw * artistCode rows r.artist, yw * ((r.year : ℚ) - meanYear rows)]

/-- Modelled from the spec: the atomic model snapshot — corpus records in
stable row order (carrying the id↔row mapping and the metadata table),
the train-time weights, the fitted statistics and the feature matrix. -/
structure ModelSnapshot where
  records : List TrackRecord
  artist_weight : ℚ
  year_weight : ℚ
  stats : List (ℚ × ℚ)
  matrix : List (List ℚ)
  deriving DecidableEq, Repr

/-- The row-order list of track identifiers (the id↔row mapping). -/
def ModelSnapshot.ids (s : ModelSnapshot) : List String :=
  s.records.map (fun r => r.track_id)

/-- Consistency of a snapshot: one matrix row per known track. -/
def ModelSnapshot.WF (s : ModelSnapshot) : Prop :=
  s.matrix.length = s.records.length

instance (s : ModelSnapshot) : Decidable s.WF := by
  unfold ModelSnapshot.WF; infer_instance

/-- Modelled from the spec: building a fresh snapshot off to the side —
fit statistics over the corpus, encode every row, store the corpus in
stable row order. -/
def buildSnapshot (rows : List TrackRecord) (aw yw : ℚ) : ModelSnapshot :=
  let stats := fitStats rows
  { records := rows
    artist_weight := aw
    year_weight := yw
    stats := stats
    matrix := rows.map (encodeRow rows stats aw yw) }

/-- Modelled from the spec: the model is either `Untrained` or `Trained`
with a published snapshot. -/
inductive Model where
  | untrained
  | trained (snap : ModelSnapshot)
  deriving DecidableEq, Repr

/-- Default artist weight of `train`. -/
def defaultArtistWeight : ℚ := 100

/-- Default year weight of `train`. -/
def defaultYearWeight : ℚ := 10

/-- Default number of recommendations of `get_full_recommendations`. -/
def defaultNRecommendations : Nat := 5

/-- Modelled from the spec: `train` — validate, then build a whole new
snapshot and swap it in, overwriting any prior trained state; on
validation failure the prior model is returned untouched together with
the error. -/
def train (m : Model) (rs : RecordSet) (aw yw : ℚ) : Model × Option ModelError :=
  match validateRecords rs with
  | some e => (m, some e)
  | none => (Model.trained (buildSnapshot rs.rows aw yw), none)

/-- Modelled from the spec: `update` — validate the schema exactly as
`train` does, reject an incoming identifier already present
(`DuplicateIdentifierError`, reject policy), then recompute the feature
matrix over the combined corpus (full-recompute statistics policy) and
swap in the new snapshot; on any failure the prior model is returned
untouched. -/
def update (m : Model) (rs : RecordSet) : Model × Option ModelError :=
  match m with
  | Model.untrained => (m, some ModelError.untrainedModel)
  | Model.trained snap =>
    match validateRecords rs with
    | some e => (m, some e)
    | none =>
      if rs.rows.any (fun r => snap.ids.contains r.track_id) then
        (m, some ModelError.duplicateIdentifier)
      else
        (Model.trained (buildSnapshot (snap.records ++ rs.rows)
          snap.artist_weight snap.year_weight), none)

/-- Squared Euclidean distance over paired entries of two vectors. -/
def sqDist : List ℚ → List ℚ → ℚ
  | a :: as, b :: bs => (a - b) ^ 2 + sqDist as bs
  | _, _ => 0

/-- Modelled from the spec: the brute-force similarity index — every row
paired with its distance to the query vector. -/
def neighborPairs (matrix : List (List ℚ)) (v : List ℚ) : List (Nat × ℚ) :=
  (List.range matrix.length).map (fun i => (i, sqDist v (matrix.getD i [])))

/-- The query order: ascending distance, ties broken by ascending row
index. -/
def pairLe (a b : Nat × ℚ) : Prop :=
  a.2 < b.2 ∨ (a.2 = b.2 ∧ a.1 ≤ b.1)

instance : DecidableRel pairLe := fun a b => by
  unfold pairLe; infer_instance

instance : IsTotal (Nat × ℚ) pairLe where
  total a b := by
    rcases lt_trichotomy a.2 b.2 with h | h | h
    · exact Or.inl (Or.inl h)
    · rcases Nat.le_total a.1 b.1 with h1 | h1
      · exact Or.inl (Or.inr ⟨h, h1⟩)
      · exact Or.inr (Or.inr ⟨h.symm, h1⟩)
    · exact Or.inr (Or.inl h)

instance : IsTrans (Nat × ℚ) pairLe where
  trans a b c hab hbc := by
    rcases hab with h1 | ⟨h1, h1i⟩
    · rcases hbc with h2 | ⟨h2, _⟩
      · exact Or.inl (h1.trans h2)
      · exact Or.inl (h2 ▸ h1)
    · rcases hbc with h2 | ⟨h2, h2i⟩
      · exact Or.inl (h1 ▸ h2)
      · exact Or.inr ⟨h1.trans h2, h1i.trans h2i⟩

/-- Modelled from the spec: the index answers a `k`-nearest query by
sorting all rows ascending by distance with ties broken by ascending
row index. -/
def sortPairs (l : List (Nat × ℚ)) : List (Nat × ℚ) :=
  List.insertionSort pairLe l

/-- The stored feature vector of a given row. -/
def seedVector (snap : ModelSnapshot) (row : Nat) : List ℚ :=
  snap.matrix.getD row []

/-- Modelled from the spec: the neighbor pairs backing a recommendation
answer — query `n + 1` nearest rows (clamped to the corpus size),
remove the self-match by row index, truncate to `n`. -/
def recPairs (snap : ModelSnapshot) (row : Nat) (n : Nat) : List (Nat × ℚ) :=
  (((sortPairs (neighborPairs snap.matrix (seedVector snap row))).take
      (min (n + 1) snap.matrix.length)).filter (fun p => p.1 != row)).take n

/-- A user-facing recommendation record. -/
structure Recommendation where
  name : String
  artist : String
  year : Int
  distance : ℚ
  deriving DecidableEq, Repr

/-- Placeholder record for out-of-range row lookups (never reached on
well-formed snapshots). -/
def dummyTrack : TrackRecord :=
  { track_id := "", name := "", artist := "", year := 0, audio := [] }

/-- Modelled from the spec: `RecommendationFormatter` — one (row-index,
distance) pair becomes one record enriched with the row's metadata. -/
def formatRecommendation (snap : ModelSnapshot) (p : Nat × ℚ) : Recommendation :=
  let r := snap.records.getD p.1 dummyTrack
  { name := r.name, artist := r.artist, year := r.year, distance := p.2 }

/-- Modelled from the spec: `get_full_recommendations` — fails with
`UntrainedModelError` before a successful train, with `NotFoundError`
when the identifier is absent from the trained corpus, and otherwise
formats the cleaned neighbor pairs in query order. -/
def get_full_recommendations (m : Model) (track_id : String) (n : Nat) :
    Except ModelError (List Recommendation) :=
  match m with
  | Model.untrained => Except.error ModelError.untrainedModel
  | Model.trained snap =>
    match idIndex track_id snap.ids with
    | none => Except.error ModelError.notFound
    | some row =>
      Except.ok ((recPairs snap row n).map (formatRecommendation snap))

end MusicRec

namespace Frontend

/-- Default `limit` of `musicApi.getRecommendations` in the frontend API
boundary (src/unnamed/part_011). -/
def getRecommendationsDefaultLimit : Nat := 10

/-- `musicApi.getRecommendations` from src/unnamed/part_011: builds the
request URL from the endpoint path (the config constant is not in the
snapshot, so it is a parameter), the seed id and the limit. -/
def getRecommendationsUrl (endpoint seedId : String) (limit : Nat) : String :=
  endpoint ++ "?seed_id=" ++ seedId ++ "&limit=" ++ toString limit

/-- `musicApi.getRecommendations` with the `limit` argument omitted. -/
def getRecommendationsUrlDefault (endpoint seedId : String) : String :=
  getRecommendationsUrl endpoint seedId getRecommendationsDefaultLimit

/-- A track as handled by the daily-mix walker (useDailyMix in
src/unnamed/part_005); ids are numeric and stringified with `String(…)`
before entering the played/skipped sets. -/
structure DMTrack where
  id : Nat
  name : String
  artist : String
  deriving DecidableEq, Repr

/-- `getAllExcludedIds` from useDailyMix: the played set, the skipped set
and the stringified liked ids, concatenated. -/
def getAllExcludedIds (played skipped : List String) (likedSongIds : List Nat) :
    List String :=
  played ++ skipped ++ likedSongIds.map (fun i => toString i)

/-- The client-side filter of `fetchBatch` in useDailyMix: drop every
recommended track whose stringified id is in the played set or in the
skipped set at the time of the fetch (the backend response is an
oracle argument). -/
def fetchBatch (played skipped : List String) (response : List DMTrack) :
    List DMTrack :=
  response.filter (fun t =>
    !(played.contains (toString t.id)) && !(skipped.contains (toString t.id)))

/-- `likeCurrent` in useDailyMix pushes the current track's stringified id
onto the end of the seed stack (`seedStack.current.push(String(current.id))`);
the end of the array is the top of the stack. -/
def pushSeed (stack : List String) (id : Nat) : List String :=
  stack ++ [toString id]

/-- The while-loop of `fillQueueIfEmpty`, acting on the seed stack in
reversed (top-first) representation: while the queue is empty and seeds
remain, pop the top seed, fetch its batch and append it to the queue.
Returns the final queue and the remaining (still reversed) stack. -/
def fillLoop (queue : List DMTrack) (played skipped : List String)
    (resp : String → List DMTrack) : List String → List DMTrack × List String
  | [] => (queue, [])
  | seed :: rest =>
    if queue.isEmpty then
      fillLoop (queue ++ fetchBatch played skipped (resp seed)) played skipped resp rest
    else
      (queue, seed :: rest)

/-- `fillQueueIfEmpty` from useDailyMix: JavaScript `pop()` takes the last
array element, so the loop runs on the reversed stack and the remaining
stack is reversed back. -/
def fillQueueIfEmpty (queue : List DMTrack) (stack : List String)
    (played skipped : List String) (resp : String → List DMTrack) :
    List DMTrack × List String :=
  let r := fillLoop queue played skipped resp stack.reverse
  (r.1, r.2.reverse)

/-- An example track kept by the daily-mix filter. -/
def exKeptTrack : DMTrack := { id := 4, name := "Delta", artist := "d" }

/-- An example track dropped by the daily-mix filter (already played). -/
def exPlayedTrack : DMTrack := { id := 1, name := "Echo", artist := "e" }

/-- An example backend oracle: every seed answers with one fresh track. -/
def exResp : String → List DMTrack :=
  fun _ => [{ id := 8, name := "Hotel", artist := "h" }]

end Frontend

namespace MusicRec

/-- A small concrete corpus: three tracks with distinct identifiers. -/
def exRows : List TrackRecord :=
  [{ track_id := "A", name := "Alpha", artist := "ArtA", year := 2000,
     audio := [1, 2, 3, 4, 5, 6, 7, 8, 9, 10, 11] },
   { track_id := "B", name := "Beta", artist := "ArtB", year := 2005,
     audio := [2, 3, 4, 5, 6, 7, 8, 9, 10, 11, 12] },
   { track_id := "C", name := "Gamma", artist := "ArtC", year := 2010,
     audio := [9, 8, 7, 6, 5, 4, 3, 2, 1, 0, 1] }]

/-- The concrete corpus as a record set with all required columns. -/
def exRecords : RecordSet :=
  { columns := requiredColumns, rows := exRows }

/-- An empty record set (fails validation). -/
def exEmptyRecords : RecordSet :=
  { columns := requiredColumns, rows := [] }

/-- A record set missing required columns (fails validation). -/
def exBadColumns : RecordSet :=
  { columns := ["track_id", "name"], rows := exRows }

/-- The concrete snapshot trained on the three-track corpus with the
default weights. -/
def exSnap : ModelSnapshot := buildSnapshot exRows 100 10

/-- The concrete trained model. -/
def exModel : Model := Model.trained exSnap

/-- A fourth track, to be added by `update`. -/
def exRowX : TrackRecord :=
  { track_id := "X", name := "Xi", artist := "ArtX", year := 2001,
    audio := [1, 2, 3, 4, 5, 6, 7, 8, 9, 10, 12] }

/-- The update record set carrying the fourth track. -/
def exUpdateRecords : RecordSet :=
  { columns := requiredColumns, rows := [exRowX] }

/-- The model after updating the three-track model with the fourth
track. -/
def exUpdatedModel : Model := (update exModel exUpdateRecords).1

theorem idIndex_eq_none_iff (tid : String) (l : List String) :
    idIndex tid l = none ↔ tid ∉ l := by
  induction l with
  | nil => simp [idIndex]
  | cons x xs ih =>
    by_cases hx : x = tid
    · subst hx; simp [idIndex]
    · have hx2 : ¬ tid = x := fun h => hx h.symm
      cases hj : idIndex tid xs with
      | none => simp [idIndex, hx, hx2, hj, ih.mp hj]
      | some j =>
        have : tid ∈ xs := by
          by_contra hmem
          rw [ih.mpr hmem] at hj
          exact Option.noConfusion hj
        simp [idIndex, hx, hx2, hj, this]

theorem idIndex_isSome_of_mem (tid : String) (l : List String) (h : tid ∈ l) :
    ∃ i, idIndex tid l = some i := by
  cases hi : idIndex tid l with
  | none => exact absurd ((idIndex_eq_none_iff tid l).mp hi) (by simpa using h)
  | some i => exact ⟨i, rfl⟩

theorem idIndex_lt_length (tid : String) (l : List String) (i : Nat)
    (h : idIndex tid l = some i) : i < l.length := by
  induction l generalizing i with
  | nil => simp [idIndex] at h
  | cons x xs ih =>
    by_cases hx : x = tid
    · rw [idIndex, if_pos hx] at h
      injection h with h
      simp only [List.length_cons]
      omega
    · rw [idIndex, if_neg hx] at h
      cases hj : idIndex tid xs with
      | none => rw [hj] at h; simp at h
      | some j =>
        rw [hj] at h
        simp only [Option.map_some'] at h
        injection h with h
        have hjlt := ih j hj
        simp only [List.length_cons]
        omega

theorem sqDist_nonneg (v w : List ℚ) : 0 ≤ sqDist v w := by
  induction v generalizing w with
  | nil => cases w <;> simp [sqDist]
  | cons a as ih =>
    cases w with
    | nil => simp [sqDist]
    | cons b bs =>
      simpa [sqDist] using add_nonneg (sq_nonneg (a - b)) (ih bs)

theorem neighborPairs_length (matrix : List (List ℚ)) (v : List ℚ) :
    (neighborPairs matrix v).length = matrix.length := by
  simp [neighborPairs]

theorem sortPairs_perm (l : List (Nat × ℚ)) : List.Perm (sortPairs l) l :=
  List.perm_insertionSort pairLe l

theorem sortPairs_sorted (l : List (Nat × ℚ)) : List.Sorted pairLe (sortPairs l) :=
  List.sorted_insertionSort pairLe l

theorem length_filter_ne (l : List (Nat × ℚ)) (row : Nat) :
    (l.filter (fun p => p.1 != row)).length
      = l.length - l.countP (fun p => p.1 == row) := by
  induction l with
  | nil => rfl
  | cons a l ih =>
    have hle := List.countP_le_length (p := fun p : Nat × ℚ => p.1 == row) (l := l)
    by_cases h : a.1 = row
    · have hb : (a.1 != row) = false := by simp [h]
      have hc : (a.1 == row) = true := by simp [h]
      simp [List.filter_cons, List.countP_cons, hb, hc, ih]
    · have hb : (a.1 != row) = true := by simp [h]
      have hc : (a.1 == row) = false := by simp [h]
      simp [List.filter_cons, List.countP_cons, hb, hc, ih]
      omega

theorem countP_neighborPairs_self (matrix : List (List ℚ)) (v : List ℚ)
    (row : Nat) (h : row < matrix.length) :
    (neighborPairs matrix v).countP (fun p => p.1 == row) = 1 := by
  unfold neighborPairs
  rw [List.countP_map]
  have hcomp : ((fun p : Nat × ℚ => p.1 == row) ∘
      (fun i => (i, sqDist v (matrix.getD i [])))) = fun i => i == row := rfl
  rw [hcomp]
  have : (List.range matrix.length).countP (fun i => i == row)
      = (List.range matrix.length).count row := (List.count_eq_countP row _).symm
  rw [this]
  exact List.count_eq_one_of_mem (List.nodup_range _) (List.mem_range.mpr h)

theorem recPairs_length (snap : ModelSnapshot) (row n : Nat)
    (hrow : row < snap.matrix.length) :
    (recPairs snap row n).length = min n (snap.matrix.length - 1) := by
  unfold recPairs
  have hSperm := sortPairs_perm (neighborPairs snap.matrix (seedVector snap row))
  have hSlen : (sortPairs (neighborPairs snap.matrix (seedVector snap row))).length
      = snap.matrix.length := by
    rw [hSperm.length_eq, neighborPairs_length]
  have hScount : (sortPairs (neighborPairs snap.matrix (seedVector snap row))).countP
      (fun p => p.1 == row) = 1 := by
    rw [hSperm.countP_eq]
    exact countP_neighborPairs_self snap.matrix (seedVector snap row) row hrow
  set S := sortPairs (neighborPairs snap.matrix (seedVector snap row)) with hS
  by_cases hcase : n + 1 ≤ snap.matrix.length
  · have hk : min (n + 1) snap.matrix.length = n + 1 := Nat.min_eq_left hcase
    rw [hk]
    have htklen : (S.take (n + 1)).length = n + 1 := by
      rw [List.length_take, hSlen]
      omega
    have hcle : (S.take (n + 1)).countP (fun p => p.1 == row) ≤ 1 := by
      calc (S.take (n + 1)).countP (fun p => p.1 == row)
          ≤ S.countP (fun p => p.1 == row) := (List.take_sublist _ _).countP_le _
        _ = 1 := hScount
    rw [List.length_take, length_filter_ne, htklen]
    omega
  · have hk : min (n + 1) snap.matrix.length = snap.matrix.length :=
      Nat.min_eq_right (by omega)
    rw [hk]
    have htk : S.take snap.matrix.length = S := by
      rw [← hSlen]
      exact List.take_length S
    rw [htk, List.length_take, length_filter_ne, hSlen, hScount]

theorem update_trained_eq (snap : ModelSnapshot) (rs : RecordSet) :
    update (Model.trained snap) rs =
      match validateRecords rs with
      | some e => (Model.trained snap, some e)
      | none =>
        if rs.rows.any (fun r => snap.ids.contains r.track_id) then
          (Model.trained snap, some ModelError.duplicateIdentifier)
        else
          (Model.trained (buildSnapshot (snap.records ++ rs.rows)
            snap.artist_weight snap.year_weight), none) := rfl

/-- C1: a well-formed `get_full_recommendations` query fails with
`UntrainedModelError` exactly when the model has never been trained,
fails with `NotFoundError` exactly when the model is trained but the
identifier is absent from the trained corpus, and succeeds otherwise —
no other failure mode exists. -/
theorem query_failure_modes (m : Model) (tid : String) (n : Nat) :
    (m = Model.untrained →
      get_full_recommendations m tid n = Except.error ModelError.untrainedModel) ∧
    (∀ snap, m = Model.trained snap → tid ∉ snap.ids →
      get_full_recommendations m tid n = Except.error ModelError.notFound) ∧
    (∀ snap, m = Model.trained snap → tid ∈ snap.ids →
      ∃ l, get_full_recommendations m tid n = Except.ok l) := by
  refine ⟨?_, ?_, ?_⟩
  · rintro rfl; rfl
  · rintro snap rfl hni
    have hn : idIndex tid snap.ids = none := (idIndex_eq_none_iff _ _).mpr hni
    simp [get_full_recommendations, hn]
  · rintro snap rfl hmem
    obtain ⟨i, hi⟩ := idIndex_isSome_of_mem tid snap.ids hmem
    exact ⟨(recPairs snap i n).map (formatRecommendation snap),
      by simp [get_full_recommendations, hi]⟩

/-- C1 witness: on the concrete three-track corpus, an untrained query
fails with `UntrainedModelError`, a trained query for an unknown id
fails with `NotFoundError`, and a trained query for a known id
succeeds. -/
theorem query_failure_modes_witness :
    get_full_recommendations Model.untrained "A" 5
      = Except.error ModelError.untrainedModel ∧
    get_full_recommendations (Model.trained exSnap) "Z" 5
      = Except.error ModelError.notFound ∧
    ∃ l, get_full_recommendations (Model.trained exSnap) "A" 5 = Except.ok l :=
  ⟨(query_failure_modes Model.untrained "A" 5).1 rfl,
   (query_failure_modes (Model.trained exSnap) "Z" 5).2.1 exSnap rfl (by decide),
   (query_failure_modes (Model.trained exSnap) "A" 5).2.2 exSnap rfl (by decide)⟩

/-- C2: a successful `get_full_recommendations` answer formats exactly the
cleaned neighbor pairs, and no cleaned pair carries the seed row index —
the seed track (its own nearest neighbor at distance 0) is removed and
never appears among its own recommendations. -/
theorem recommendations_exclude_seed (snap : ModelSnapshot) (tid : String)
    (n row : Nat) (h : idIndex tid snap.ids = some row) :
    get_full_recommendations (Model.trained snap) tid n
      = Except.ok ((recPairs snap row n).map (formatRecommendation snap)) ∧
    ∀ p ∈ recPairs snap row n, p.1 ≠ row := by
  constructor
  · simp [get_full_recommendations, h]
  · intro p hp
    have hmem := List.mem_of_mem_take hp
    have hf := List.mem_filter.mp hmem
    simpa using hf.2

/-- C2 witness: on the concrete three-track corpus, the answer for track
"A" (row 0) formats the cleaned pairs and no pair carries row 0. -/
theorem recommendations_exclude_seed_witness :
    get_full_recommendations (Model.trained exSnap) "A" 2
      = Except.ok ((recPairs exSnap 0 2).map (formatRecommendation exSnap)) ∧
    ∀ p ∈ recPairs exSnap 0 2, p.1 ≠ 0 :=
  recommendations_exclude_seed exSnap "A" 2 0 (by decide)

/-- C5: whenever `train` or `update` reports a failure (the only failures
are validation failures: missing required columns, empty record set, a
duplicate identifier under the reject policy, or update before train),
the model snapshot handed back is exactly the prior one, for every prior
model state. -/
theorem failed_train_update_preserves_model :
    (∀ (m : Model) (rs : RecordSet) (aw yw : ℚ) (e : ModelError),
        (train m rs aw yw).2 = some e → (train m rs aw yw).1 = m) ∧
    (∀ (m : Model) (rs : RecordSet) (e : ModelError),
        (update m rs).2 = some e → (update m rs).1 = m) := by
  constructor
  · intro m rs aw yw e h
    unfold train at h ⊢
    cases hv : validateRecords rs with
    | some e2 => rfl
    | none => rw [hv] at h; simp at h
  · intro m rs e h
    cases m with
    | untrained => rfl
    | trained snap =>
      rw [update_trained_eq] at h ⊢
      cases hv : validateRecords rs with
      | some e2 => rfl
      | none =>
        rw [hv] at h
        by_cases hd : (rs.rows.any fun r => snap.ids.contains r.track_id) = true
        · rw [if_pos hd]
        · rw [if_neg hd] at h
          simp at h

/-- C5 witness: training on an empty record set and updating with a
record set missing required columns both fail and leave the concrete
models untouched. -/
theorem failed_train_update_preserves_model_witness :
    (train Model.untrained exEmptyRecords 100 10).1 = Model.untrained ∧
    (update exModel exBadColumns).1 = exModel :=
  ⟨failed_train_update_preserves_model.1 Model.untrained exEmptyRecords 100 10
      ModelError.invalidInput (by decide),
   failed_train_update_preserves_model.2 exModel exBadColumns
      ModelError.invalidInput (by decide)⟩

/-- C7: `train` is idempotent — training a second time with the same
record set and the same weights republishes the very same model, so
every recommendation query answers identically on the two models. -/
theorem train_idempotent (m m1 m2 : Model) (rs : RecordSet) (aw yw : ℚ)
    (h1 : train m rs aw yw = (m1, none)) (h2 : train m1 rs aw yw = (m2, none)) :
    m2 = m1 ∧ ∀ tid n, get_full_recommendations m2 tid n
      = get_full_recommendations m1 tid n := by
  unfold train at h1 h2
  cases hv : validateRecords rs with
  | some e2 =>
    rw [hv] at h1
    simp at h1
  | none =>
    rw [hv] at h1 h2
    have e1 : Model.trained (buildSnapshot rs.rows aw yw) = m1 := congrArg Prod.fst h1
    have e2 : Model.trained (buildSnapshot rs.rows aw yw) = m2 := congrArg Prod.fst h2
    subst e1; subst e2
    exact ⟨rfl, fun tid n => rfl⟩

/-- C7 witness: training the untrained model on the concrete corpus and
then training the result again with the same input and weights yields
the same published model and identical recommendation answers. -/
theorem train_idempotent_witness :
    exModel = exModel ∧ ∀ tid n, get_full_recommendations exModel tid n
      = get_full_recommendations exModel tid n :=
  train_idempotent Model.untrained exModel exModel exRecords 100 10 rfl rfl

/-- C3: for a consistent trained snapshot and an identifier present in the
corpus, the recommendation list has length exactly
`min n (trained_track_count - 1)`; requesting more than
`trained_track_count - 1` returns the clamped shorter list without an
error. -/
theorem result_length_clamped (snap : ModelSnapshot) (tid : String)
    (n row : Nat) (hwf : snap.WF) (h : idIndex tid snap.ids = some row)
    (hn : 1 ≤ n) :
    ∃ l, get_full_recommendations (Model.trained snap) tid n = Except.ok l ∧
      l.length = min n (snap.records.length - 1) := by
  have hids : snap.ids.length = snap.records.length := by
    simp [ModelSnapshot.ids]
  have hrowlt : row < snap.ids.length := idIndex_lt_length tid snap.ids row h
  have hrow : row < snap.matrix.length := by
    unfold ModelSnapshot.WF at hwf
    omega
  refine ⟨(recPairs snap row n).map (formatRecommendation snap), ?_, ?_⟩
  · simp [get_full_recommendations, h]
  · rw [List.length_map, recPairs_length snap row n hrow]
    unfold ModelSnapshot.WF at hwf
    rw [hwf]

/-- C3 witness: on the three-track corpus, requesting five
recommendations for track "A" yields a clamped two-item list and no
error. -/
theorem result_length_clamped_witness :
    ∃ l, get_full_recommendations (Model.trained exSnap) "A" 5 = Except.ok l ∧
      l.length = min 5 (exSnap.records.length - 1) :=
  result_length_clamped exSnap "A" 5 0 (by decide) (by decide) (by decide)

/-- C4: a successful query formats exactly the cleaned neighbor pairs;
every distance in those pairs is non-negative; the pairs are sorted by
the query order (ascending distance, ties broken by ascending row
index); and the formatter preserves the order — the distance column of
the output is the distance column of the pairs. -/
theorem result_sorted_nonneg (snap : ModelSnapshot) (tid : String)
    (n row : Nat) (h : idIndex tid snap.ids = some row) :
    get_full_recommendations (Model.trained snap) tid n
      = Except.ok ((recPairs snap row n).map (formatRecommendation snap)) ∧
    (∀ p ∈ recPairs snap row n, 0 ≤ p.2) ∧
    List.Sorted pairLe (recPairs snap row n) ∧
    ((recPairs snap row n).map (formatRecommendation snap)).map
        (fun r => r.distance) = (recPairs snap row n).map (fun p => p.2) := by
  have hsub : (recPairs snap row n).Sublist
      (sortPairs (neighborPairs snap.matrix (seedVector snap row))) := by
    unfold recPairs
    exact ((List.take_sublist _ _).trans (List.filter_sublist _)).trans
      (List.take_sublist _ _)
  refine ⟨by simp [get_full_recommendations, h], ?_, ?_, ?_⟩
  · intro p hp
    have hpS := hsub.subset hp
    have hpP := (sortPairs_perm _).subset hpS
    unfold neighborPairs at hpP
    obtain ⟨i, _, hip⟩ := List.mem_map.mp hpP
    rw [← hip]
    exact sqDist_nonneg _ _
  · exact (sortPairs_sorted _).sublist hsub
  · simp [List.map_map]
    intro a b _
    rfl

/-- C4 witness: the property instantiated on the three-track corpus for
track "A" (row 0) with two requested recommendations. -/
theorem result_sorted_nonneg_witness :
    get_full_recommendations (Model.trained exSnap) "A" 2
      = Except.ok ((recPairs exSnap 0 2).map (formatRecommendation exSnap)) ∧
    (∀ p ∈ recPairs exSnap 0 2, 0 ≤ p.2) ∧
    List.Sorted pairLe (recPairs exSnap 0 2) ∧
    ((recPairs exSnap 0 2).map (formatRecommendation exSnap)).map
        (fun r => r.distance) = (recPairs exSnap 0 2).map (fun p => p.2) :=
  result_sorted_nonneg exSnap "A" 2 0 (by decide)

/-- C8 counterexample: the frontend recommendation boundary
(`musicApi.getRecommendations`) requests `limit=10` when the caller omits
the limit — not 5 as the claim states. -/
theorem frontend_default_limit_not_five :
    Frontend.getRecommendationsUrlDefault "/api/music/recommendations" "T1"
      = "/api/music/recommendations?seed_id=T1&limit=10" ∧
    Frontend.getRecommendationsUrlDefault "/api/music/recommendations" "T1"
      ≠ Frontend.getRecommendationsUrl "/api/music/recommendations" "T1" 5 ∧
    Frontend.getRecommendationsDefaultLimit ≠ 5 := by
  refine ⟨rfl, by decide, by decide⟩

/-- C8 (amended): the core's `get_full_recommendations` defaults
`n_recommendations` to 5, so the default query returns
`min 5 (trained_track_count - 1)` records; the frontend recommendation
boundary, however, requests `limit=10` by default, not 5. -/
theorem default_recommendation_counts (snap : ModelSnapshot) (tid : String)
    (row : Nat) (hwf : snap.WF) (h : idIndex tid snap.ids = some row) :
    defaultNRecommendations = 5 ∧
    (∃ l, get_full_recommendations (Model.trained snap) tid
        defaultNRecommendations = Except.ok l ∧
      l.length = min 5 (snap.records.length - 1)) ∧
    Frontend.getRecommendationsDefaultLimit = 10 := by
  have hids : snap.ids.length = snap.records.length := by
    simp [ModelSnapshot.ids]
  have hrowlt : row < snap.ids.length := idIndex_lt_length tid snap.ids row h
  have hrow : row < snap.matrix.length := by
    unfold ModelSnapshot.WF at hwf
    omega
  refine ⟨rfl, ?_, rfl⟩
  refine ⟨(recPairs snap row defaultNRecommendations).map
    (formatRecommendation snap), ?_, ?_⟩
  · simp [get_full_recommendations, h]
  · rw [List.length_map, recPairs_length snap row defaultNRecommendations hrow]
    unfold ModelSnapshot.WF at hwf
    rw [hwf]
    rfl

/-- C8 amended witness: the default counts instantiated on the concrete
three-track corpus for track "A". -/
theorem default_recommendation_counts_witness :
    defaultNRecommendations = 5 ∧
    (∃ l, get_full_recommendations (Model.trained exSnap) "A"
        defaultNRecommendations = Except.ok l ∧
      l.length = min 5 (exSnap.records.length - 1)) ∧
    Frontend.getRecommendationsDefaultLimit = 10 :=
  default_recommendation_counts exSnap "A" 0 (by decide) (by decide)

theorem recPairs_eq_filter_of_large (snap : ModelSnapshot) (row n : Nat)
    (hrow : row < snap.matrix.length) (hn : snap.matrix.length - 1 ≤ n) :
    recPairs snap row n
      = (sortPairs (neighborPairs snap.matrix (seedVector snap row))).filter
          (fun p => p.1 != row) := by
  have hSperm := sortPairs_perm (neighborPairs snap.matrix (seedVector snap row))
  have hSlen : (sortPairs (neighborPairs snap.matrix (seedVector snap row))).length
      = snap.matrix.length := by
    rw [hSperm.length_eq, neighborPairs_length]
  have hScount : (sortPairs (neighborPairs snap.matrix (seedVector snap row))).countP
      (fun p => p.1 == row) = 1 := by
    rw [hSperm.countP_eq]
    exact countP_neighborPairs_self snap.matrix (seedVector snap row) row hrow
  unfold recPairs
  rw [Nat.min_eq_right (by omega)]
  rw [← hSlen, List.take_length]
  apply List.take_of_length_le
  rw [length_filter_ne, hSlen, hScount]
  omega

theorem mem_recPairs_of_ne (snap : ModelSnapshot) (row j n : Nat)
    (hrow : row < snap.matrix.length) (hj : j < snap.matrix.length)
    (hne : j ≠ row) (hn : snap.matrix.length - 1 ≤ n) :
    ∃ q ∈ recPairs snap row n, q.1 = j := by
  rw [recPairs_eq_filter_of_large snap row n hrow hn]
  have hSperm := sortPairs_perm (neighborPairs snap.matrix (seedVector snap row))
  refine ⟨(j, sqDist (seedVector snap row) (snap.matrix.getD j [])), ?_, rfl⟩
  apply List.mem_filter.mpr
  constructor
  · apply hSperm.mem_iff.mpr
    unfold neighborPairs
    exact List.mem_map.mpr ⟨j, List.mem_range.mpr hj, rfl⟩
  · simpa using hne

theorem train_success_snapshot (m : Model) (rs : RecordSet) (aw yw : ℚ)
    (snap : ModelSnapshot) (h : train m rs aw yw = (Model.trained snap, none)) :
    snap = buildSnapshot rs.rows aw yw := by
  unfold train at h
  cases hv : validateRecords rs with
  | some e2 => rw [hv] at h; simp at h
  | none =>
    rw [hv] at h
    have h1 : Model.trained (buildSnapshot rs.rows aw yw) = Model.trained snap :=
      congrArg Prod.fst h
    injection h1 with h1
    exact h1.symm

theorem update_success_snapshot (snap snap2 : ModelSnapshot) (rs : RecordSet)
    (h : update (Model.trained snap) rs = (Model.trained snap2, none)) :
    snap2 = buildSnapshot (snap.records ++ rs.rows)
      snap.artist_weight snap.year_weight := by
  rw [update_trained_eq] at h
  cases hv : validateRecords rs with
  | some e2 => rw [hv] at h; simp at h
  | none =>
    rw [hv] at h
    by_cases hd : (rs.rows.any fun r => snap.ids.contains r.track_id) = true
    · rw [if_pos hd] at h; simp at h
    · rw [if_neg hd] at h
      have h1 : Model.trained (buildSnapshot (snap.records ++ rs.rows)
          snap.artist_weight snap.year_weight) = Model.trained snap2 :=
        congrArg Prod.fst h
      injection h1 with h1
      exact h1.symm

/-- C6: after every successful `train` or `update` the feature matrix has
one row per track known to the model and agrees with the id↔row mapping;
after `update` adds new tracks to a trained model, every previously
known identifier and every added identifier is queryable; and every
non-seed row of the combined corpus — in particular an added track X —
appears among a seed track's recommendations once enough
recommendations are requested. -/
theorem train_update_consistency :
    (∀ (m : Model) (rs : RecordSet) (aw yw : ℚ) (snap : ModelSnapshot),
        train m rs aw yw = (Model.trained snap, none) →
        snap.matrix.length = snap.ids.length ∧
        snap.matrix.length = snap.records.length) ∧
    (∀ (m : Model) (rs : RecordSet) (snap : ModelSnapshot),
        update m rs = (Model.trained snap, none) →
        snap.matrix.length = snap.ids.length ∧
        snap.matrix.length = snap.records.length) ∧
    (∀ (snap snap2 : ModelSnapshot) (rs : RecordSet),
        update (Model.trained snap) rs = (Model.trained snap2, none) →
        ∀ (tid : String) (n : Nat),
          (tid ∈ snap.ids ∨ tid ∈ rs.rows.map (fun r => r.track_id)) →
          ∃ l, get_full_recommendations (Model.trained snap2) tid n
            = Except.ok l) ∧
    (∀ (snap snap2 : ModelSnapshot) (rs : RecordSet),
        update (Model.trained snap) rs = (Model.trained snap2, none) →
        ∀ (row j n : Nat), row < snap2.matrix.length →
          j < snap2.matrix.length → j ≠ row →
          snap2.matrix.length - 1 ≤ n →
          ∃ q ∈ recPairs snap2 row n, q.1 = j) := by
  refine ⟨?_, ?_, ?_, ?_⟩
  · intro m rs aw yw snap h
    have hs := train_success_snapshot m rs aw yw snap h
    subst hs
    constructor <;> simp [buildSnapshot, ModelSnapshot.ids]
  · intro m rs snap h
    cases m with
    | untrained =>
      unfold update at h
      simp at h
    | trained snap0 =>
      have hs := update_success_snapshot snap0 snap rs h
      subst hs
      constructor <;> simp [buildSnapshot, ModelSnapshot.ids]
  · intro snap snap2 rs h tid n hmem
    have hs := update_success_snapshot snap snap2 rs h
    subst hs
    have hids : (buildSnapshot (snap.records ++ rs.rows)
        snap.artist_weight snap.year_weight).ids
        = snap.ids ++ rs.rows.map (fun r => r.track_id) := by
      simp [buildSnapshot, ModelSnapshot.ids]
    have htid : tid ∈ (buildSnapshot (snap.records ++ rs.rows)
        snap.artist_weight snap.year_weight).ids := by
      rw [hids, List.mem_append]
      exact hmem
    obtain ⟨i, hi⟩ := idIndex_isSome_of_mem tid _ htid
    exact ⟨(recPairs (buildSnapshot (snap.records ++ rs.rows)
        snap.artist_weight snap.year_weight) i n).map
      (formatRecommendation (buildSnapshot (snap.records ++ rs.rows)
        snap.artist_weight snap.year_weight)),
      by simp [get_full_recommendations, hi]⟩
  · intro snap snap2 rs h row j n hrow hj hne hn
    exact mem_recPairs_of_ne snap2 row j n hrow hj hne hn

/-- C6 witness: on the concrete corpus, after updating the three-track
model with track "X", the added identifier "X" (row 3) is queryable and
appears among the recommendations of the previously trained track "A"
(row 0) when three recommendations are requested. -/
theorem train_update_consistency_witness :
    (∃ l, get_full_recommendations
        (Model.trained (buildSnapshot (exRows ++ [exRowX]) 100 10)) "X" 2
      = Except.ok l) ∧
    ∃ q ∈ recPairs (buildSnapshot (exRows ++ [exRowX]) 100 10) 0 3, q.1 = 3 :=
  ⟨train_update_consistency.2.2.1 exSnap
      (buildSnapshot (exRows ++ [exRowX]) 100 10) exUpdateRecords rfl "X" 2
      (Or.inr (by decide)),
   train_update_consistency.2.2.2 exSnap
      (buildSnapshot (exRows ++ [exRowX]) 100 10) exUpdateRecords rfl 0 3 3
      (by decide) (by decide) (by decide) (by decide)⟩

end MusicRec

namespace Frontend

/-- The while-loop of `fillQueueIfEmpty` does nothing when the play queue
is already non-empty. -/
theorem fillLoop_of_ne_nil (queue : List DMTrack) (played skipped : List String)
    (resp : String → List DMTrack) (l : List String) (hq : queue ≠ []) :
    fillLoop queue played skipped resp l = (queue, l) := by
  cases l with
  | nil => rfl
  | cons a as =>
    unfold fillLoop
    rw [if_neg]
    simp [hq]

/-- C9: every track kept by the client-side filter of `fetchBatch` has an
id whose string form is, at the time of the fetch, neither in the played
set nor in the skipped set; and the request's excluded ids cover all
played, skipped and liked ids. -/
theorem daily_mix_batch_excludes (played skipped : List String)
    (likedSongIds : List Nat) (response : List DMTrack) :
    (∀ t ∈ fetchBatch played skipped response,
        toString t.id ∉ played ∧ toString t.id ∉ skipped) ∧
    (∀ s : String,
        s ∈ played ∨ s ∈ skipped ∨ s ∈ likedSongIds.map (fun i => toString i) →
        s ∈ getAllExcludedIds played skipped likedSongIds) := by
  constructor
  · intro t ht
    have hf := List.mem_filter.mp ht
    have h2 := hf.2
    simp only [Bool.and_eq_true, Bool.not_eq_true', List.contains,
      List.elem_eq_mem, decide_eq_false_iff_not] at h2
    exact h2
  · intro s hs
    unfold getAllExcludedIds
    rcases hs with h | h | h
    · exact List.mem_append.mpr (Or.inl (List.mem_append.mpr (Or.inl h)))
    · exact List.mem_append.mpr (Or.inl (List.mem_append.mpr (Or.inr h)))
    · exact List.mem_append.mpr (Or.inr h)

/-- C9 witness: with played = ["1"], skipped = ["2"] and liked = [3], the
track with id 4 survives the batch filter and is neither played nor
skipped, and a played id is covered by the excluded ids of the
request. -/
theorem daily_mix_batch_excludes_witness :
    (toString exKeptTrack.id ∉ ["1"] ∧ toString exKeptTrack.id ∉ ["2"]) ∧
    "1" ∈ getAllExcludedIds ["1"] ["2"] [3] :=
  ⟨(daily_mix_batch_excludes ["1"] ["2"] [3] [exKeptTrack, exPlayedTrack]).1
      exKeptTrack (by decide),
   (daily_mix_batch_excludes ["1"] ["2"] [3] [exKeptTrack, exPlayedTrack]).2
      "1" (Or.inl (by decide))⟩

/-- C10: `likeCurrent` pushes the current track's id onto the top of the
seed stack (the array end, which `pop` takes), so once the play queue is
empty the most recently liked track is the next seed fetched:
`fillQueueIfEmpty` on an empty queue fills it from that seed's batch and
leaves the rest of the stack untouched. -/
theorem like_current_seed_lifo (stack : List String) (c : DMTrack)
    (played skipped : List String) (resp : String → List DMTrack)
    (hne : fetchBatch played skipped (resp (toString c.id)) ≠ []) :
    (pushSeed stack c.id).getLast? = some (toString c.id) ∧
    fillQueueIfEmpty [] (pushSeed stack c.id) played skipped resp
      = (fetchBatch played skipped (resp (toString c.id)), stack) := by
  constructor
  · exact List.getLast?_concat stack
  · unfold fillQueueIfEmpty pushSeed
    rw [List.reverse_append]
    simp only [List.reverse_cons, List.reverse_nil, List.nil_append,
      List.singleton_append]
    have hstep : fillLoop [] played skipped resp
        (toString c.id :: stack.reverse)
        = fillLoop (fetchBatch played skipped (resp (toString c.id)))
            played skipped resp stack.reverse := by
      simp [fillLoop]
    rw [hstep, fillLoop_of_ne_nil _ _ _ _ _ hne]
    simp

/-- C10 witness: liking the current track with id 7 puts "7" on top of the
stack ["s1"], and filling the empty queue fetches the batch for seed "7"
first, leaving ["s1"] on the stack. -/
theorem like_current_seed_lifo_witness :
    (pushSeed ["s1"] 7).getLast? = some (toString (7 : Nat)) ∧
    fillQueueIfEmpty [] (pushSeed ["s1"] 7) [] [] exResp
      = (fetchBatch [] [] (exResp (toString (7 : Nat))), ["s1"]) :=
  like_current_seed_lifo ["s1"] { id := 7, name := "Golf", artist := "g" }
    [] [] exResp (by decide)

end Frontend

